import Mathlib

/-!
Shallow embedding of the annotation-worker pipeline (`main.py`) of the
Wildlive_MAS_Template repository, together with proofs of the spec claims.

Python values flowing through the pipeline are modelled by the JSON-like
type `Value`; Python dicts are association lists with distinct keys,
Python `None` is `Value.null`, floats are modelled as rationals.
Exceptions are modelled by `Except String`; the message strings paraphrase
CPython's messages (they are non-empty, as the real ones are).
The external HTTP world (the detection service response) is an oracle
parameter `HttpResult`; the wall clock feeding `timestamp_now` is an
abstract counter `Clock` that advances on every read.
Side effects of the orchestrator (marking the job running, invoking the
detection service, publishing the success event, sending the failure
notice) are recorded in an event trace `List Event`.
-/

set_option maxHeartbeats 1000000
set_option linter.unusedVariables false

namespace Wildlive

/-- JSON-like values exchanged by the pipeline. -/
inductive Value : Type where
  | null : Value
  | bool : Bool → Value
  | int : Int → Value
  | float : Rat → Value
  | str : String → Value
  | arr : List Value → Value
  | obj : List (String × Value) → Value

/-- Key lookup in a modelled dict (association list, distinct keys). -/
def lookup? : List (String × Value) → String → Option Value
  | [], _ => none
  | (k, v) :: rest, key => if k = key then some v else lookup? rest key

def Value.isObj : Value → Bool
  | .obj _ => true
  | _ => false

/-- Python `d.get(key)`: `None` when the key is absent; raises
AttributeError when the receiver is not a dict. -/
def pyGet (d : Value) (key : String) : Except String Value :=
  match d with
  | .obj kvs => .ok ((lookup? kvs key).getD Value.null)
  | _ => .error ("AttributeError: object has no attribute get: " ++ key)

/-- Python `d.get(key, default)`. -/
def pyGetD (d : Value) (key : String) (default : Value) : Except String Value :=
  match d with
  | .obj kvs => .ok ((lookup? kvs key).getD default)
  | _ => .error ("AttributeError: object has no attribute get: " ++ key)

/-- Python `d[key]`: KeyError when the key is absent, TypeError when the
receiver is not a dict. -/
def pySubscript (d : Value) (key : String) : Except String Value :=
  match d with
  | .obj kvs =>
    match lookup? kvs key with
    | some v => .ok v
    | none => .error ("KeyError: " ++ key)
  | _ => .error ("TypeError: value does not support indexing: " ++ key)

def digitsToNat (cs : List Char) : Nat :=
  cs.foldl (fun acc ch => acc * 10 + (ch.toNat - 48)) 0

/-- Python `int(string)`: optional surrounding whitespace, optional sign,
then decimal digits (digit-grouping underscores are not modelled). -/
def parseIntStr (s : String) : Option Int :=
  let t := s.trim
  let neg := t.startsWith "-"
  let digits := if t.startsWith "-" || t.startsWith "+" then t.drop 1 else t
  if digits.length != 0 && digits.all Char.isDigit then
    some (if neg then -(digitsToNat digits.toList : Int) else (digitsToNat digits.toList : Int))
  else none

/-- Truncation of a rational toward zero, as Python `int(float)`. -/
def ratTrunc (q : Rat) : Int := Int.tdiv q.num (q.den : Int)

/-- Python `int(v)`: ints pass through, bools map to 0/1, floats truncate
toward zero, numeric strings parse; everything else raises. -/
def pyInt : Value → Except String Int
  | .int n => .ok n
  | .bool b => .ok (if b then 1 else 0)
  | .float q => .ok (ratTrunc q)
  | .str s =>
    match parseIntStr s with
    | some n => .ok n
    | none => .error ("ValueError: invalid literal for int with base 10: " ++ s)
  | .null => .error "TypeError: int argument must be a string or a number, not NoneType"
  | .arr _ => .error "TypeError: int argument must be a string or a number, not list"
  | .obj _ => .error "TypeError: int argument must be a string or a number, not dict"

/-- Python iteration, as used by `for det in organ_detections`: lists yield
their elements, strings their characters, dicts their keys; other values
raise TypeError. -/
def pyIter : Value → Except String (List Value)
  | .arr xs => .ok xs
  | .str s => .ok (s.toList.map fun ch => Value.str (String.singleton ch))
  | .obj kvs => .ok (kvs.map fun kv => Value.str kv.1)
  | _ => .error "TypeError: value is not iterable"

/-- The Python for-loop of `map_result_to_wlmo_annotation`: apply `f` to each
element in order, appending results; the first exception aborts the loop and
discards the partial list. -/
def mapExcept (f : Value → Except String Value) : List Value → Except String (List Value)
  | [] => .ok []
  | x :: xs =>
    match f x with
    | .error m => .error m
    | .ok y =>
      match mapExcept f xs with
      | .error m => .error m
      | .ok ys => .ok (y :: ys)

/-- Abstract monotone wall clock feeding `timestamp_now`. -/
structure Clock where
  n : Nat

/-- `timestamp_now`: reads the clock (modelling
`datetime.utcnow().isoformat() + "Z"`) and advances it, so that two distinct
reads yield distinct timestamp strings. -/
def timestamp_now (c : Clock) : String × Clock :=
  ("1970-01-01T00:00:" ++ toString c.n ++ "Z", ⟨c.n + 1⟩)

/-- `get_agent`: the fixed software-agent identity. -/
def get_agent : Value :=
  Value.obj [
    ("id", Value.str "https://example.org/agent/ annotation-service"),
    ("name", Value.str "Annotation Service"),
    ("type", Value.str "SoftwareAgent")]

/-- `build_wlmo_fragment_selector`: reads the bounding box (defaulting to an
empty dict), coerces x, y, width, height to integers (each defaulting to 0
when absent), and builds the fragment selector record. -/
def build_wlmo_fragment_selector ( annotation : Value) : Except String Value := do
  let box ← pyGetD annotation "boundingBox" (Value.obj [])
  let xv ← pyGetD box "x" (Value.int 0)
  let x ← pyInt xv
  let yv ← pyGetD box "y" (Value.int 0)
  let y ← pyInt yv
  let wv ← pyGetD box "width" (Value.int 0)
  let w ← pyInt wv
  let hv ← pyGetD box "height" (Value.int 0)
  let h ← pyInt hv
  return Value.obj [
    ("@type", Value.str "wlmo:FragmentSelector"),
    ("wlmo:value", Value.str ("xywh=" ++ toString x ++ "," ++ toString y ++ ","
      ++ toString w ++ "," ++ toString h)),
    ("wlmo:conformsTo", Value.str "http://www.w3.org/TR/media-frags/")]

/-- The loop body of `map_result_to_wlmo_annotation`: the annotation built
for one detection, given the digital object, the agent and the (already
computed) timestamp. -/
def build_annotation (digital_object agent : Value) (ts : String) (det : Value) :
    Except String Value := do
  let selector ← build_wlmo_fragment_selector det
  let cls ← pyGet det "class"
  let score ← pyGet det "score"
  let body := Value.obj [
    ("@type", Value.str "wlmo:TextualBody"),
    ("wlmo:vernacularName", cls),
    ("wlmo:confidenceScore", score)]
  let dobjId ← pyGet digital_object "id"
  return Value.obj [
    ("@context", Value.obj [("wlmo", Value.str "https://w3id.org/wlmo#")]),
    ("@type", Value.str "wlmo:Annotation"),
    ("wlmo:creator", agent),
    ("wlmo:created", Value.str ts),
    ("wlmo:motivation", Value.str "classifying"),
    ("wlmo:target", Value.obj [
      ("@type", Value.str "wlmo:DigitalObject"),
      ("wlmo:id", dobjId),
      ("wlmo:hasSelector", selector)]),
    ("wlmo:hasBody", body),
    ("wlmo:generator", Value.obj [
      ("@id", Value.str "https://wildlive.senckenberg.de/wlmo/current/"),
      ("@type", Value.str "wlmo:Software"),
      ("wlmo:name", Value.str "WildLive Detection Service")])]

/-- `map_result_to_wlmo_annotation`: computes the timestamp once (advancing
the clock once), fixes the agent, then maps each detection to an annotation
in order.  The image dimensions are accepted but unused, as in the source. -/
def map_result_to_wlmo_annotation (digital_object organ_detections image_height image_width : Value)
    (c : Clock) : Except String (List Value) × Clock :=
  let (ts, c1) := timestamp_now c
  let agent := get_agent
  (do
    let ds ← pyIter organ_detections
    mapExcept ( build_annotation digital_object agent ts) ds, c1)

/-- Oracle for the outcome of the HTTP POST made by `run_wildlive_detection`:
a parsed 2xx JSON body, a non-2xx status (`raise_for_status`), a transport
failure (timeout, connection error), or an unparsable body
(`response.json()` failure).  The message fields model the library-built
exception strings, which are never empty. -/
inductive HttpResult : Type where
  | ok : Value → HttpResult
  | statusError : Nat → String → String → HttpResult
  | transportError : String → HttpResult
  | jsonError : Nat → Nat → HttpResult

/-- `run_wildlive_detection`: on a parsed body, substitutes `[]` for a
missing `output`, `-1` for missing `image_height`/`image_width`; any HTTP or
parse failure is logged and re-raised. -/
def run_wildlive_detection (resp : HttpResult) : Except String (Value × Value × Value) :=
  match resp with
  | .ok body => do
    let out ← pyGetD body "output" (Value.arr [])
    let h ← pyGetD body "image_height" (Value.int (-1))
    let w ← pyGetD body "image_width" (Value.int (-1))
    return (out, h, w)
  | .statusError code reason url =>
    .error (toString code ++ " Error: " ++ reason ++ " for url: " ++ url)
  | .transportError detail => .error ("ConnectionError: " ++ detail)
  | .jsonError line col =>
    .error ("Expecting value: line " ++ toString line ++ " column " ++ toString col)

/-- Observable side effects of one orchestrator run. -/
inductive Event : Type where
  | markedRunning : Value → Event
  | detectionCalled : Value → Event
  | published : Value → Event
  | failed : Value → String → Event

/-- The `try` block of `process_annotation_job`, step by step: `inl` is the
successful run (its trace ends with the published event); `inr` is a raised
exception, carrying the trace emitted so far and the exception message. -/
def try_body (job_data : Value) (resp : HttpResult) (c : Clock) :
    (List Event × Clock) ⊕ (List Event × String × Clock) :=
  match pyGet job_data "jobId" with
  | .error m => .inr ([], m, c)
  | .ok jid0 =>
    let ev1 : List Event := [Event.markedRunning jid0]
    match pySubscript job_data "object" with
    | .error m => .inr (ev1, m, c)
    | .ok digital_object =>
      match pyGet digital_object "ac:accessURI" with
      | .error m => .inr (ev1, m, c)
      | .ok access_uri =>
        let ev2 : List Event := ev1 ++ [Event.detectionCalled access_uri]
        match run_wildlive_detection resp with
        | .error m => .inr (ev2, m, c)
        | .ok (detections, height, width) =>
          match map_result_to_wlmo_annotation digital_object detections height width c with
          | (.error m, c1) => .inr (ev2, m, c1)
          | (.ok annotations, c1) =>
            match pySubscript job_data "jobId" with
            | .error m => .inr (ev2, m, c1)
            | .ok jid =>
              .inl (ev2 ++ [Event.published (Value.obj [
                ("annotations", Value.arr annotations), ("jobId", jid)])], c1)

/-- `process_annotation_job`: runs the try block; an exception is caught and
converted into a failure notice for `job_data.get("jobId", "unknown")` —
unless that lookup itself raises (non-dict payload), in which case the
exception escapes to the caller (`Except.error`). -/
def process_annotation_job (job_data : Value) (resp : HttpResult) (c : Clock) :
    Except String (List Event × Clock) :=
  match try_body job_data resp c with
  | .inl (evs, c1) => .ok (evs, c1)
  | .inr (evs, m, c1) =>
    match pyGetD job_data "jobId" (Value.str "unknown") with
    | .ok jid => .ok (evs ++ [Event.failed jid m], c1)
    | .error m2 => .error m2

/-- The Outcome Events (success publication or failure notice) of a trace. -/
def outcomeEvents (evs : List Event) : List Event :=
  evs.filter fun e =>
    match e with
    | .published _ => true
    | .failed _ _ => true
    | _ => false

/-- Explicit shape of one orchestrator run on a dict payload (proof helper:
`process_annotation_job` is proved equal to it below, after which case
analysis on a run is case analysis on this definition). -/
def processSpec (pkvs : List (String × Value)) (resp : HttpResult) (c : Clock) :
    List Event × Clock :=
  let jid0 := (lookup? pkvs "jobId").getD Value.null
  let jidF := (lookup? pkvs "jobId").getD (Value.str "unknown")
  match lookup? pkvs "object" with
  | none => ([Event.markedRunning jid0, Event.failed jidF "KeyError: object"], c)
  | some dobj =>
    match dobj with
    | Value.obj okvs =>
      let uri := (lookup? okvs "ac:accessURI").getD Value.null
      match run_wildlive_detection resp with
      | .error m => ([Event.markedRunning jid0, Event.detectionCalled uri,
          Event.failed jidF m], c)
      | .ok (dets, hh, ww) =>
        match map_result_to_wlmo_annotation (Value.obj okvs) dets hh ww c with
        | (.error m, c1) => ([Event.markedRunning jid0, Event.detectionCalled uri,
            Event.failed jidF m], c1)
        | (.ok anns, c1) =>
          match lookup? pkvs "jobId" with
          | none => ([Event.markedRunning jid0, Event.detectionCalled uri,
              Event.failed jidF "KeyError: jobId"], c1)
          | some jid => ([Event.markedRunning jid0, Event.detectionCalled uri,
              Event.published (Value.obj [("annotations", Value.arr anns),
                ("jobId", jid)])], c1)
    | _ => ([Event.markedRunning jid0,
        Event.failed jidF "AttributeError: object has no attribute get: ac:accessURI"], c)

/-- The payload of a successful `Except` computation (junk on error). -/
def okValue : Except String Value → Value
  | .ok v => v
  | .error _ => Value.null

/-- `pyInt` succeeds on this value. -/
def intCoercible (v : Value) : Bool := (pyInt v).isOk

/-- All four bounding-box fields of this box dict (each defaulting to 0)
are integer-coercible; a non-dict box never is (its `.get` raises). -/
def boxFieldsCoercible : Value → Bool
  | .obj bkvs =>
    intCoercible ((lookup? bkvs "x").getD (Value.int 0)) &&
    intCoercible ((lookup? bkvs "y").getD (Value.int 0)) &&
    intCoercible ((lookup? bkvs "width").getD (Value.int 0)) &&
    intCoercible ((lookup? bkvs "height").getD (Value.int 0))
  | _ => false

/-- A detection the Annotation Mapper can process: a dict whose bounding box
(defaulting to the empty dict) has integer-coercible fields. -/
def wellFormedDetection : Value → Bool
  | .obj kvs => boxFieldsCoercible ((lookup? kvs "boundingBox").getD (Value.obj []))
  | _ => false

/-- Field projection out of a modelled dict value. -/
def getField (v : Value) (key : String) : Option Value :=
  match v with
  | .obj kvs => lookup? kvs key
  | _ => none

/-- Erase the creation timestamp at the top level of an annotation record
(used to compare two runs up to timestamps). -/
def scrubAnnotation : Value → Value
  | .obj kvs => .obj (kvs.map fun kv =>
      if kv.1 = "wlmo:created" then (kv.1, Value.null) else kv)
  | v => v

/-- Erase the creation timestamps inside a success event's annotation
list. -/
def scrubEventValue : Value → Value
  | .obj kvs => .obj (kvs.map fun kv =>
      if kv.1 = "annotations" then
        (kv.1, match kv.2 with
          | Value.arr xs => Value.arr (xs.map scrubAnnotation)
          | v => v)
      else kv)
  | v => v

/-- Erase creation timestamps from one trace event. -/
def scrubEvent : Event → Event
  | .published e => .published (scrubEventValue e)
  | e => e

/-- A run up to creation timestamps: drop the clock, erase the timestamps
in published events. -/
def scrubRun : Except String (List Event × Clock) → Except String (List Event)
  | .ok (evs, _) => .ok (evs.map scrubEvent)
  | .error m => .error m

/-- Example digital object, as in the source's test run. -/
def dobjEx : Value := Value.obj [
  ("id", Value.str "urn:example:1234"),
  ("type", Value.str "DigitalMediaObject"),
  ("ac:accessURI", Value.str "https://example.org/test-image.jpg")]

/-- Example detection, as returned by the demonstration detection service. -/
def detJag : Value := Value.obj [
  ("class", Value.str "Jaquar"),
  ("score", Value.float (91/100)),
  ("boundingBox", Value.obj [("x", Value.int 30), ("y", Value.int 50),
    ("width", Value.int 100), ("height", Value.int 120)])]

/-- A detection that is an empty dict (all bounding-box fields default). -/
def detEmpty : Value := Value.obj []

/-- The annotation built for `detJag` at clock 5 (used to instantiate
membership statements on concrete runs). -/
def annJag5 : Value :=
  okValue ( build_annotation dobjEx get_agent (timestamp_now ⟨5⟩).1 detJag)

/-- A job payload whose object has an id but no `ac:accessURI` field. -/
def payloadNoURI : Value := Value.obj [
  ("jobId", Value.str "J1"),
  ("object", Value.obj [("id", Value.str "urn:example:1234"),
    ("type", Value.str "DigitalMediaObject")])]

/-- On a dict payload the orchestrator never raises and its run is exactly
`processSpec`. -/
lemma process_obj_eq (pkvs : List (String × Value)) (resp : HttpResult) (c : Clock) :
    process_annotation_job (Value.obj pkvs) resp c = Except.ok (processSpec pkvs resp c) := by
  unfold process_annotation_job try_body processSpec
  simp only [pyGet, pySubscript, pyGetD]
  cases holo : lookup? pkvs "object" with
  | none => simp
  | some dobj =>
    cases dobj with
    | obj okvs =>
      dsimp only
      cases hdet : run_wildlive_detection resp with
      | error m => simp
      | ok t =>
        rcases t with ⟨dets, hh, ww⟩
        dsimp only
        rcases hmr : map_result_to_wlmo_annotation (Value.obj okvs) dets hh ww c with ⟨r, c1⟩
        cases r with
        | error m => simp
        | ok anns =>
          dsimp only
          cases hjid : lookup? pkvs "jobId" with
          | none => simp
          | some jid => simp
    | null => simp
    | bool b => simp
    | int n => simp
    | float q => simp
    | str s => simp
    | arr xs => simp

/-- The fragment-selector builder succeeds on a dict detection exactly when
all four present bounding-box fields are integer-coercible. -/
lemma selector_isOk_eq (dkvs : List (String × Value)) :
    (build_wlmo_fragment_selector (Value.obj dkvs)).isOk =
      boxFieldsCoercible ((lookup? dkvs "boundingBox").getD (Value.obj [])) := by
  unfold build_wlmo_fragment_selector
  simp only [pyGetD, bind, Except.bind]
  cases hb : (lookup? dkvs "boundingBox").getD (Value.obj []) with
  | obj bkvs =>
    dsimp only
    cases hx : pyInt ((lookup? bkvs "x").getD (Value.int 0)) with
    | error m => simp [boxFieldsCoercible, intCoercible, hx, Except.isOk, Except.toBool]
    | ok x =>
      cases hy : pyInt ((lookup? bkvs "y").getD (Value.int 0)) with
      | error m => simp [boxFieldsCoercible, intCoercible, hx, hy, Except.isOk, Except.toBool]
      | ok y =>
        cases hw : pyInt ((lookup? bkvs "width").getD (Value.int 0)) with
        | error m => simp [boxFieldsCoercible, intCoercible, hx, hy, hw, Except.isOk, Except.toBool]
        | ok w =>
          cases hh : pyInt ((lookup? bkvs "height").getD (Value.int 0)) with
          | error m => simp [boxFieldsCoercible, intCoercible, hx, hy, hw, hh, Except.isOk, Except.toBool]
          | ok h =>
            simp [boxFieldsCoercible, intCoercible, hx, hy, hw, hh, Except.isOk, Except.toBool,
              pure, Except.pure]
  | null => simp [boxFieldsCoercible, Except.isOk, Except.toBool]
  | bool b => simp [boxFieldsCoercible, Except.isOk, Except.toBool]
  | int n => simp [boxFieldsCoercible, Except.isOk, Except.toBool]
  | float q => simp [boxFieldsCoercible, Except.isOk, Except.toBool]
  | str s => simp [boxFieldsCoercible, Except.isOk, Except.toBool]
  | arr xs => simp [boxFieldsCoercible, Except.isOk, Except.toBool]

/-- When every element maps successfully, the loop returns all results in
order (no filtering, no deduplication). -/
lemma mapExcept_ok_of_isOk (f : Value → Except String Value) :
    ∀ ds : List Value, (∀ x ∈ ds, (f x).isOk = true) →
      mapExcept f ds = Except.ok (ds.map fun x => okValue (f x)) := by
  intro ds
  induction ds with
  | nil => intro _; rfl
  | cons x xs ih =>
    intro h
    have hx := h x (List.mem_cons_self x xs)
    cases hfx : f x with
    | error m => rw [hfx] at hx; simp [Except.isOk, Except.toBool] at hx
    | ok y =>
      have ihx := ih fun z hz => h z (List.mem_cons_of_mem x hz)
      simp [mapExcept, hfx, ihx, okValue]

/-- Every element of a successful loop result arises from some input
element. -/
lemma mapExcept_mem_ok (f : Value → Except String Value) :
    ∀ ds ys : List Value, mapExcept f ds = Except.ok ys →
      ∀ y ∈ ys, ∃ x ∈ ds, f x = Except.ok y := by
  intro ds
  induction ds with
  | nil =>
    intro ys h y hy
    unfold mapExcept at h
    injection h with h
    subst h
    simp at hy
  | cons x xs ih =>
    intro ys h y hy
    unfold mapExcept at h
    cases hfx : f x with
    | error m => rw [hfx] at h; simp at h
    | ok y0 =>
      rw [hfx] at h
      cases hrest : mapExcept f xs with
      | error m => rw [hrest] at h; simp at h
      | ok ys0 =>
        rw [hrest] at h
        injection h with h
        subst h
        rcases List.mem_cons.mp hy with rfl | hy2
        · exact ⟨x, List.mem_cons_self x xs, hfx⟩
        · rcases ih ys0 hrest y hy2 with ⟨z, hz, hfz⟩
          exact ⟨z, List.mem_cons_of_mem x hz, hfz⟩

/-- A failing loop pinpoints a failing element with the same message. -/
lemma mapExcept_error_mem (f : Value → Except String Value) :
    ∀ (ds : List Value) (m : String), mapExcept f ds = Except.error m →
      ∃ x ∈ ds, f x = Except.error m := by
  intro ds
  induction ds with
  | nil => intro m h; unfold mapExcept at h; simp at h
  | cons x xs ih =>
    intro m h
    unfold mapExcept at h
    cases hfx : f x with
    | error m0 =>
      rw [hfx] at h
      injection h with h
      subst h
      exact ⟨x, List.mem_cons_self x xs, hfx⟩
    | ok y0 =>
      rw [hfx] at h
      cases hrest : mapExcept f xs with
      | error m0 =>
        rw [hrest] at h
        injection h with h
        subst h
        rcases ih _ hrest with ⟨z, hz, hfz⟩
        exact ⟨z, List.mem_cons_of_mem x hz, hfz⟩
      | ok ys0 => rw [hrest] at h; simp at h

/-- The per-detection mapping succeeds on a dict digital object and a
well-formed detection. -/
lemma build_annotation_isOk (digital_object agent : Value) (ts : String) (det : Value)
    (h1 : digital_object.isObj = true) (h2 : wellFormedDetection det = true) :
    ( build_annotation digital_object agent ts det).isOk = true := by
  cases det with
  | obj dkvs =>
    cases digital_object with
    | obj okvs =>
      unfold build_annotation
      have hsel : (build_wlmo_fragment_selector (Value.obj dkvs)).isOk = true := by
        rw [selector_isOk_eq]
        simpa [wellFormedDetection] using h2
      cases hs : build_wlmo_fragment_selector (Value.obj dkvs) with
      | error m => rw [hs] at hsel; simp [Except.isOk, Except.toBool] at hsel
      | ok sel =>
        simp [hs, pyGet, bind, Except.bind, pure, Except.pure, Except.isOk, Except.toBool]
    | null => simp [Value.isObj] at h1
    | bool b => simp [Value.isObj] at h1
    | int n => simp [Value.isObj] at h1
    | float q => simp [Value.isObj] at h1
    | str s => simp [Value.isObj] at h1
    | arr xs => simp [Value.isObj] at h1
  | null => simp [wellFormedDetection] at h2
  | bool b => simp [wellFormedDetection] at h2
  | int n => simp [wellFormedDetection] at h2
  | float q => simp [wellFormedDetection] at h2
  | str s => simp [wellFormedDetection] at h2
  | arr xs => simp [wellFormedDetection] at h2

/-- Every annotation the per-detection mapping produces carries the
timestamp it was given in its `wlmo:created` field. -/
lemma build_annotation_created (digital_object agent : Value) (ts : String) (det a : Value)
    (h : build_annotation digital_object agent ts det = Except.ok a) :
    getField a "wlmo:created" = some (Value.str ts) := by
  unfold build_annotation at h
  simp only [bind, Except.bind] at h
  cases hs : build_wlmo_fragment_selector det with
  | error m => rw [hs] at h; simp at h
  | ok sel =>
    rw [hs] at h
    dsimp only at h
    cases hc : pyGet det "class" with
    | error m => rw [hc] at h; simp at h
    | ok cls =>
      rw [hc] at h
      dsimp only at h
      cases hsc : pyGet det "score" with
      | error m => rw [hsc] at h; simp at h
      | ok score =>
        rw [hsc] at h
        dsimp only at h
        cases hid : pyGet digital_object "id" with
        | error m => rw [hid] at h; simp at h
        | ok dobjId =>
          rw [hid] at h
          simp only [pure, Except.pure] at h
          injection h with h
          subst h
          rfl

/-- A string append with a non-empty left part is non-empty. -/
lemma append_ne_empty_left (s t : String) (h : s ≠ "") : s ++ t ≠ "" := by
  intro e
  apply h
  have h2 : s.data ++ t.data = ([] : List Char) := congrArg String.data e
  have h3 : s.data = [] := (List.append_eq_nil.mp h2).1
  cases s with
  | mk l =>
    cases h3
    rfl

/-- A string append with a non-empty right part is non-empty. -/
lemma append_ne_empty_right (s t : String) (h : t ≠ "") : s ++ t ≠ "" := by
  intro e
  apply h
  have h2 : s.data ++ t.data = ([] : List Char) := congrArg String.data e
  have h4 : t.data = [] := (List.append_eq_nil.mp h2).2
  cases t with
  | mk l =>
    cases h4
    rfl

/-- Every exception message of the modelled `int()` coercion is non-empty. -/
lemma pyInt_error_ne (v : Value) (m : String) (h : pyInt v = Except.error m) : m ≠ "" := by
  cases v with
  | int n => simp [pyInt] at h
  | bool b => simp [pyInt] at h
  | float q => simp [pyInt] at h
  | str s =>
    unfold pyInt at h
    dsimp only at h
    cases hp : parseIntStr s with
    | some n => rw [hp] at h; simp at h
    | none =>
      rw [hp] at h
      injection h with h
      subst h
      exact append_ne_empty_left _ _ (by decide)
  | null => injection h with h; subst h; decide
  | arr xs => injection h with h; subst h; decide
  | obj kvs => injection h with h; subst h; decide

/-- Every exception message of the modelled `.get` access is non-empty. -/
lemma pyGetD_error_ne (d : Value) (key : String) (dflt : Value) (m : String)
    (h : pyGetD d key dflt = Except.error m) : m ≠ "" := by
  cases d with
  | obj kvs => simp [pyGetD] at h
  | null => injection h with h; subst h; exact append_ne_empty_left _ _ (by decide)
  | bool b => injection h with h; subst h; exact append_ne_empty_left _ _ (by decide)
  | int n => injection h with h; subst h; exact append_ne_empty_left _ _ (by decide)
  | float q => injection h with h; subst h; exact append_ne_empty_left _ _ (by decide)
  | str s => injection h with h; subst h; exact append_ne_empty_left _ _ (by decide)
  | arr xs => injection h with h; subst h; exact append_ne_empty_left _ _ (by decide)

/-- Every exception message of the modelled attribute access is non-empty. -/
lemma pyGet_error_ne (d : Value) (key : String) (m : String)
    (h : pyGet d key = Except.error m) : m ≠ "" := by
  cases d with
  | obj kvs => simp [pyGet] at h
  | null => injection h with h; subst h; exact append_ne_empty_left _ _ (by decide)
  | bool b => injection h with h; subst h; exact append_ne_empty_left _ _ (by decide)
  | int n => injection h with h; subst h; exact append_ne_empty_left _ _ (by decide)
  | float q => injection h with h; subst h; exact append_ne_empty_left _ _ (by decide)
  | str s => injection h with h; subst h; exact append_ne_empty_left _ _ (by decide)
  | arr xs => injection h with h; subst h; exact append_ne_empty_left _ _ (by decide)

/-- Every exception message of the fragment-selector builder is
non-empty. -/
lemma selector_error_ne (det : Value) (m : String)
    (h : build_wlmo_fragment_selector det = Except.error m) : m ≠ "" := by
  unfold build_wlmo_fragment_selector at h
  simp only [bind, Except.bind] at h
  cases hb : pyGetD det "boundingBox" (Value.obj []) with
  | error m0 => rw [hb] at h; injection h with h; subst h; exact pyGetD_error_ne _ _ _ _ hb
  | ok box =>
    rw [hb] at h
    dsimp only at h
    cases hxv : pyGetD box "x" (Value.int 0) with
    | error m0 => rw [hxv] at h; injection h with h; subst h; exact pyGetD_error_ne _ _ _ _ hxv
    | ok xv =>
      rw [hxv] at h
      dsimp only at h
      cases hx : pyInt xv with
      | error m0 => rw [hx] at h; injection h with h; subst h; exact pyInt_error_ne _ _ hx
      | ok x =>
        rw [hx] at h
        dsimp only at h
        cases hyv : pyGetD box "y" (Value.int 0) with
        | error m0 => rw [hyv] at h; injection h with h; subst h; exact pyGetD_error_ne _ _ _ _ hyv
        | ok yv =>
          rw [hyv] at h
          dsimp only at h
          cases hy : pyInt yv with
          | error m0 => rw [hy] at h; injection h with h; subst h; exact pyInt_error_ne _ _ hy
          | ok y =>
            rw [hy] at h
            dsimp only at h
            cases hwv : pyGetD box "width" (Value.int 0) with
            | error m0 => rw [hwv] at h; injection h with h; subst h; exact pyGetD_error_ne _ _ _ _ hwv
            | ok wv =>
              rw [hwv] at h
              dsimp only at h
              cases hw : pyInt wv with
              | error m0 => rw [hw] at h; injection h with h; subst h; exact pyInt_error_ne _ _ hw
              | ok w =>
                rw [hw] at h
                dsimp only at h
                cases hhv : pyGetD box "height" (Value.int 0) with
                | error m0 => rw [hhv] at h; injection h with h; subst h; exact pyGetD_error_ne _ _ _ _ hhv
                | ok hv =>
                  rw [hhv] at h
                  dsimp only at h
                  cases hh : pyInt hv with
                  | error m0 => rw [hh] at h; injection h with h; subst h; exact pyInt_error_ne _ _ hh
                  | ok hgt => rw [hh] at h; simp [pure, Except.pure] at h

/-- Every exception message of the per-detection mapping is non-empty. -/
lemma build_annotation_error_ne (digital_object agent : Value) (ts : String) (det : Value)
    (m : String) (h : build_annotation digital_object agent ts det = Except.error m) :
    m ≠ "" := by
  unfold build_annotation at h
  simp only [bind, Except.bind] at h
  cases hs : build_wlmo_fragment_selector det with
  | error m0 => rw [hs] at h; injection h with h; subst h; exact selector_error_ne _ _ hs
  | ok sel =>
    rw [hs] at h
    dsimp only at h
    cases hc : pyGet det "class" with
    | error m0 => rw [hc] at h; injection h with h; subst h; exact pyGet_error_ne _ _ _ hc
    | ok cls =>
      rw [hc] at h
      dsimp only at h
      cases hsc : pyGet det "score" with
      | error m0 => rw [hsc] at h; injection h with h; subst h; exact pyGet_error_ne _ _ _ hsc
      | ok score =>
        rw [hsc] at h
        dsimp only at h
        cases hid : pyGet digital_object "id" with
        | error m0 => rw [hid] at h; injection h with h; subst h; exact pyGet_error_ne _ _ _ hid
        | ok dobjId => rw [hid] at h; simp [pure, Except.pure] at h

/-- Every exception message of the Annotation Mapper is non-empty. -/
lemma map_result_error_ne (digital_object dets ih iw : Value) (c : Clock) (m : String)
    (h : ( map_result_to_wlmo_annotation digital_object dets ih iw c).1 = Except.error m) :
    m ≠ "" := by
  unfold map_result_to_wlmo_annotation at h
  simp only [timestamp_now, bind, Except.bind] at h
  cases hit : pyIter dets with
  | error m0 =>
    rw [hit] at h
    injection h with h
    subst h
    cases dets with
    | null => injection hit with hit; subst hit; decide
    | bool b => injection hit with hit; subst hit; decide
    | int n => injection hit with hit; subst hit; decide
    | float q => injection hit with hit; subst hit; decide
    | str s => simp [pyIter] at hit
    | arr xs => simp [pyIter] at hit
    | obj kvs => simp [pyIter] at hit
  | ok ds =>
    rw [hit] at h
    dsimp only at h
    rcases mapExcept_error_mem _ ds m h with ⟨x, hx, hfx⟩
    exact build_annotation_error_ne _ _ _ _ _ hfx

/-- Every exception message of the Detection Client is non-empty. -/
lemma run_wildlive_detection_error_ne (resp : HttpResult) (m : String)
    (h : run_wildlive_detection resp = Except.error m) : m ≠ "" := by
  cases resp with
  | ok body =>
    unfold run_wildlive_detection at h
    simp only [bind, Except.bind] at h
    cases hout : pyGetD body "output" (Value.arr []) with
    | error m0 => rw [hout] at h; injection h with h; subst h; exact pyGetD_error_ne _ _ _ _ hout
    | ok out =>
      rw [hout] at h
      dsimp only at h
      cases hhgt : pyGetD body "image_height" (Value.int (-1)) with
      | error m0 => rw [hhgt] at h; injection h with h; subst h; exact pyGetD_error_ne _ _ _ _ hhgt
      | ok hgt =>
        rw [hhgt] at h
        dsimp only at h
        cases hwid : pyGetD body "image_width" (Value.int (-1)) with
        | error m0 => rw [hwid] at h; injection h with h; subst h; exact pyGetD_error_ne _ _ _ _ hwid
        | ok wid => rw [hwid] at h; simp [pure, Except.pure] at h
  | statusError code reason url =>
    injection h with h
    subst h
    exact append_ne_empty_left _ _ (append_ne_empty_right _ _ (by decide))
  | transportError detail =>
    injection h with h
    subst h
    exact append_ne_empty_left _ _ (by decide)
  | jsonError line col =>
    injection h with h
    subst h
    exact append_ne_empty_left _ _ (append_ne_empty_right _ _ (by decide))

/-- Up to timestamp erasure, the per-detection mapping does not depend on
the timestamp it is given (errors are identical, successes differ only in
the erased `wlmo:created` field). -/
lemma build_annotation_scrub (dobj agent : Value) (ts ts2 : String) (det : Value) :
    Except.map scrubAnnotation ( build_annotation dobj agent ts det) =
      Except.map scrubAnnotation ( build_annotation dobj agent ts2 det) := by
  unfold build_annotation
  simp only [bind, Except.bind]
  cases hs : build_wlmo_fragment_selector det with
  | error m => rfl
  | ok sel =>
    dsimp only
    cases hc : pyGet det "class" with
    | error m => rfl
    | ok cls =>
      dsimp only
      cases hsc : pyGet det "score" with
      | error m => rfl
      | ok score =>
        dsimp only
        cases hid : pyGet dobj "id" with
        | error m => rfl
        | ok dobjId =>
          simp [pure, Except.pure, Except.map, scrubAnnotation]

/-- Up to timestamp erasure, the mapping loop does not depend on the
timestamp. -/
lemma mapExcept_scrub (dobj agent : Value) (ts ts2 : String) :
    ∀ ds : List Value,
      Except.map (List.map scrubAnnotation) (mapExcept ( build_annotation dobj agent ts) ds) =
        Except.map (List.map scrubAnnotation) (mapExcept ( build_annotation dobj agent ts2) ds) := by
  intro ds
  induction ds with
  | nil => rfl
  | cons x xs ih =>
    have hx := build_annotation_scrub dobj agent ts ts2 x
    unfold mapExcept
    cases hx1 : build_annotation dobj agent ts x with
    | error m1 =>
      rw [hx1] at hx
      cases hx2 : build_annotation dobj agent ts2 x with
      | error m2 =>
        rw [hx2] at hx
        simp [Except.map] at hx
        subst hx
        rfl
      | ok y2 =>
        rw [hx2] at hx
        simp [Except.map] at hx
    | ok y1 =>
      rw [hx1] at hx
      cases hx2 : build_annotation dobj agent ts2 x with
      | error m2 =>
        rw [hx2] at hx
        simp [Except.map] at hx
      | ok y2 =>
        rw [hx2] at hx
        simp only [Except.map] at hx
        injection hx with hx
        cases hr1 : mapExcept ( build_annotation dobj agent ts) xs with
        | error m =>
          rw [hr1] at ih
          cases hr2 : mapExcept ( build_annotation dobj agent ts2) xs with
          | error m2 =>
            rw [hr2] at ih
            simp [Except.map] at ih
            subst ih
            rfl
          | ok ys2 =>
            rw [hr2] at ih
            simp [Except.map] at ih
        | ok ys1 =>
          rw [hr1] at ih
          cases hr2 : mapExcept ( build_annotation dobj agent ts2) xs with
          | error m2 =>
            rw [hr2] at ih
            simp [Except.map] at ih
          | ok ys2 =>
            rw [hr2] at ih
            simp only [Except.map] at ih
            injection ih with ih
            simp [Except.map, hx, ih]

/-- Up to timestamp erasure, the Annotation Mapper does not depend on the
clock it is run at. -/
lemma map_result_scrub (dobj dets ih iw : Value) (c1 c2 : Clock) :
    Except.map (List.map scrubAnnotation)
        ( map_result_to_wlmo_annotation dobj dets ih iw c1).1 =
      Except.map (List.map scrubAnnotation)
        ( map_result_to_wlmo_annotation dobj dets ih iw c2).1 := by
  unfold map_result_to_wlmo_annotation
  simp only [timestamp_now, bind, Except.bind]
  cases hit : pyIter dets with
  | error m => rfl
  | ok ds => exact mapExcept_scrub dobj get_agent _ _ ds

/-- C9: the Annotation Mapper ignores the image dimensions: for any two
pairs of image height/width values (and the same digital object, detections
and clock) it produces identical output, so the dimensions influence no
field of any produced Annotation. -/
theorem claim9_image_dimensions_unused
    (digital_object dets h1 w1 h2 w2 : Value) (c : Clock) :
    map_result_to_wlmo_annotation digital_object dets h1 w1 c =
      map_result_to_wlmo_annotation digital_object dets h2 w2 c := rfl

/-- C5: the Fragment Selector value string is `"xywh=x,y,w,h"` built from
the bounding box fields coerced to integers, each missing field defaulting
to 0 (the box itself defaults to the empty dict). -/
theorem claim5_fragment_selector_value
    (dkvs bkvs : List (String × Value)) (x y w h : Int)
    (hbox : (lookup? dkvs "boundingBox").getD (Value.obj []) = Value.obj bkvs)
    (hx : pyInt ((lookup? bkvs "x").getD (Value.int 0)) = Except.ok x)
    (hy : pyInt ((lookup? bkvs "y").getD (Value.int 0)) = Except.ok y)
    (hw : pyInt ((lookup? bkvs "width").getD (Value.int 0)) = Except.ok w)
    (hh : pyInt ((lookup? bkvs "height").getD (Value.int 0)) = Except.ok h) :
    build_wlmo_fragment_selector (Value.obj dkvs) = Except.ok (Value.obj [
      ("@type", Value.str "wlmo:FragmentSelector"),
      ("wlmo:value", Value.str ("xywh=" ++ toString x ++ "," ++ toString y ++ ","
        ++ toString w ++ "," ++ toString h)),
      ("wlmo:conformsTo", Value.str "http://www.w3.org/TR/media-frags/")]) := by
  unfold build_wlmo_fragment_selector
  simp [pyGetD, hbox, hx, hy, hw, hh, bind, Except.bind, pure, Except.pure]

/-- C5 witness: box {x:30,y:50,width:100,height:120} yields
"xywh=30,50,100,120" and the empty box yields "xywh=0,0,0,0". -/
theorem claim5_witness :
    build_wlmo_fragment_selector (Value.obj [("boundingBox", Value.obj
      [("x", Value.int 30), ("y", Value.int 50), ("width", Value.int 100),
       ("height", Value.int 120)])]) = Except.ok (Value.obj [
        ("@type", Value.str "wlmo:FragmentSelector"),
        ("wlmo:value", Value.str "xywh=30,50,100,120"),
        ("wlmo:conformsTo", Value.str "http://www.w3.org/TR/media-frags/")]) ∧
    build_wlmo_fragment_selector (Value.obj [("boundingBox", Value.obj [])]) =
      Except.ok (Value.obj [
        ("@type", Value.str "wlmo:FragmentSelector"),
        ("wlmo:value", Value.str "xywh=0,0,0,0"),
        ("wlmo:conformsTo", Value.str "http://www.w3.org/TR/media-frags/")]) :=
  ⟨claim5_fragment_selector_value _ _ 30 50 100 120 rfl rfl rfl rfl rfl,
   claim5_fragment_selector_value _ _ 0 0 0 0 rfl rfl rfl rfl rfl⟩

/-- C4: the Detection Client substitutes `[]` for a missing `output` field
and `-1` for missing `image_height`/`image_width` instead of failing; and a
well-formed job whose detection response lacks `output` ends in a published
success event whose annotations list is empty. -/
theorem claim4_lenient_detection_response_defaults :
    (∀ bkvs : List (String × Value),
      run_wildlive_detection (HttpResult.ok (Value.obj bkvs)) = Except.ok
        ((lookup? bkvs "output").getD (Value.arr []),
         (lookup? bkvs "image_height").getD (Value.int (-1)),
         (lookup? bkvs "image_width").getD (Value.int (-1)))) ∧
    (∀ (pkvs okvs bkvs : List (String × Value)) (jid : Value) (c : Clock),
      lookup? pkvs "jobId" = some jid →
      lookup? pkvs "object" = some (Value.obj okvs) →
      lookup? bkvs "output" = none →
      ∃ evs c1, process_annotation_job (Value.obj pkvs) (HttpResult.ok (Value.obj bkvs)) c
          = Except.ok (evs, c1) ∧
        Event.published (Value.obj [("annotations", Value.arr []), ("jobId", jid)]) ∈ evs) := by
  constructor
  · intro bkvs
    rfl
  · intro pkvs okvs bkvs jid c hjid hobj hout
    refine ⟨[Event.markedRunning jid,
             Event.detectionCalled ((lookup? okvs "ac:accessURI").getD Value.null),
             Event.published (Value.obj [("annotations", Value.arr []), ("jobId", jid)])],
            ⟨c.n + 1⟩, ?_, by simp⟩
    unfold process_annotation_job try_body
    simp [pyGet, pySubscript, pyGetD, hjid, hobj, hout, run_wildlive_detection,
          map_result_to_wlmo_annotation, timestamp_now, pyIter, mapExcept,
          bind, Except.bind, pure, Except.pure]

/-- C4 witness: the Detection Client defaults on the empty response body,
and a concrete job whose response lacks `output` publishes an empty
annotations list. -/
theorem claim4_witness :
    run_wildlive_detection (HttpResult.ok (Value.obj [])) =
      Except.ok (Value.arr [], Value.int (-1), Value.int (-1)) ∧
    ∃ evs c1, process_annotation_job
        (Value.obj [("jobId", Value.str "J1"), ("object", Value.obj [
          ("id", Value.str "urn:example:1234"),
          ("ac:accessURI", Value.str "https://example.org/test-image.jpg")])])
        (HttpResult.ok (Value.obj [("image_height", Value.int 1024)])) ⟨0⟩
        = Except.ok (evs, c1) ∧
      Event.published (Value.obj [("annotations", Value.arr []),
        ("jobId", Value.str "J1")]) ∈ evs :=
  ⟨claim4_lenient_detection_response_defaults.1 [],
   claim4_lenient_detection_response_defaults.2 _ _ _ _ ⟨0⟩ rfl rfl rfl⟩

/-- C2 counterexample: for this job payload whose object lacks `ac:accessURI`,
the run still contains a `detectionCalled` event — the Detection Client IS
invoked (with a null image URI), contradicting the claim that zero calls to
the detection service are made for such a job. -/
theorem claim2_counterexample :
    process_annotation_job payloadNoURI
      (HttpResult.statusError 422 "Unprocessable Entity"
        "https://wildlive.senckenberg.de/run_jaquar_detection") ⟨0⟩ =
    Except.ok ([Event.markedRunning (Value.str "J1"),
      Event.detectionCalled Value.null,
      Event.failed (Value.str "J1")
        "422 Error: Unprocessable Entity for url: https://wildlive.senckenberg.de/run_jaquar_detection"],
      ⟨0⟩) := rfl

/-- C2 amended: a job whose object dict lacks `ac:accessURI` does NOT fail
before the Detection Client call: the client is invoked with a null image
URI (part 1), and the job ends in Terminal(Failure) when that call fails
(part 2, explicit trace).  Only a payload missing the `object` field
entirely fails before any Detection Client call (part 3, explicit trace
with no `detectionCalled` event). -/
theorem claim2_amended_detection_called_despite_missing_uri :
    (∀ (pkvs okvs : List (String × Value)) (jid : Value) (resp : HttpResult) (c : Clock),
      lookup? pkvs "jobId" = some jid →
      lookup? pkvs "object" = some (Value.obj okvs) →
      lookup? okvs "ac:accessURI" = none →
      ∃ evs c1, process_annotation_job (Value.obj pkvs) resp c = Except.ok (evs, c1) ∧
        Event.detectionCalled Value.null ∈ evs) ∧
    (∀ (pkvs okvs : List (String × Value)) (jid : Value) (resp : HttpResult) (c : Clock) (m : String),
      lookup? pkvs "jobId" = some jid →
      lookup? pkvs "object" = some (Value.obj okvs) →
      lookup? okvs "ac:accessURI" = none →
      run_wildlive_detection resp = Except.error m →
      process_annotation_job (Value.obj pkvs) resp c = Except.ok
        ([Event.markedRunning jid, Event.detectionCalled Value.null,
          Event.failed jid m], c)) ∧
    (∀ (pkvs : List (String × Value)) (resp : HttpResult) (c : Clock),
      lookup? pkvs "object" = none →
      process_annotation_job (Value.obj pkvs) resp c = Except.ok
        ([Event.markedRunning ((lookup? pkvs "jobId").getD Value.null),
          Event.failed ((lookup? pkvs "jobId").getD (Value.str "unknown"))
            "KeyError: object"], c)) := by
  refine ⟨?_, ?_, ?_⟩
  · intro pkvs okvs jid resp c hjid hobj huri
    rw [process_obj_eq]
    unfold processSpec
    simp only [hjid, hobj, huri, Option.getD_some, Option.getD_none]
    cases hdet : run_wildlive_detection resp with
    | error m => exact ⟨_, _, rfl, by simp⟩
    | ok t =>
      rcases t with ⟨dets, hh, ww⟩
      dsimp only
      rcases hmr : map_result_to_wlmo_annotation (Value.obj okvs) dets hh ww c with ⟨r, c1⟩
      cases r with
      | error m => exact ⟨_, _, rfl, by simp⟩
      | ok anns => exact ⟨_, _, rfl, by simp⟩
  · intro pkvs okvs jid resp c m hjid hobj huri hdet
    rw [process_obj_eq]
    unfold processSpec
    simp only [hjid, hobj, huri, hdet, Option.getD_some, Option.getD_none]
  · intro pkvs resp c hobj
    rw [process_obj_eq]
    unfold processSpec
    simp only [hobj]

/-- C2 amended witness: concrete instances of all three parts on
`payloadNoURI` (parts 1 and 2) and on a payload with no object (part 3). -/
theorem claim2_amended_witness :
    (∃ evs c1, process_annotation_job payloadNoURI
        (HttpResult.transportError "connection refused") ⟨0⟩ = Except.ok (evs, c1) ∧
      Event.detectionCalled Value.null ∈ evs) ∧
    process_annotation_job payloadNoURI (HttpResult.transportError "connection refused") ⟨0⟩ =
      Except.ok ([Event.markedRunning (Value.str "J1"), Event.detectionCalled Value.null,
        Event.failed (Value.str "J1") "ConnectionError: connection refused"], ⟨0⟩) ∧
    process_annotation_job (Value.obj [("jobId", Value.str "J2")])
        (HttpResult.ok (Value.obj [])) ⟨0⟩ =
      Except.ok ([Event.markedRunning (Value.str "J2"),
        Event.failed (Value.str "J2") "KeyError: object"], ⟨0⟩) :=
  ⟨claim2_amended_detection_called_despite_missing_uri.1 _ _ _ _ ⟨0⟩ rfl rfl rfl,
   claim2_amended_detection_called_despite_missing_uri.2.1 _ _ _ _ ⟨0⟩ _ rfl rfl rfl rfl,
   claim2_amended_detection_called_despite_missing_uri.2.2 _ _ ⟨0⟩ rfl⟩

/-- C1: for a dict Digital Object and a detection list whose elements are
well-formed detections, the Annotation Mapper succeeds and returns exactly
one Annotation per Detection, in the same order (the i-th annotation is the
one built from the i-th detection), with no filtering and no
deduplication. -/
theorem claim1_one_annotation_per_detection_in_order
    (digital_object : Value) (ds : List Value) (ih iw : Value) (c : Clock)
    (hobj : digital_object.isObj = true)
    (hdets : ∀ det ∈ ds, wellFormedDetection det = true) :
    ∃ anns, ( map_result_to_wlmo_annotation digital_object (Value.arr ds) ih iw c).1 =
        Except.ok anns ∧
      anns.length = ds.length ∧
      anns = ds.map fun det =>
        okValue ( build_annotation digital_object get_agent (timestamp_now c).1 det) := by
  refine ⟨_, ?_, by simp, rfl⟩
  unfold map_result_to_wlmo_annotation
  simp only [timestamp_now, pyIter, bind, Except.bind]
  exact mapExcept_ok_of_isOk _ ds fun x hx =>
    build_annotation_isOk digital_object get_agent _ x hobj (hdets x hx)

/-- C1 witness: the mapper on two concrete detections returns exactly the
two corresponding annotations in order. -/
theorem claim1_witness :
    ∃ anns, ( map_result_to_wlmo_annotation dobjEx (Value.arr [detJag, detEmpty])
        (Value.int 1024) (Value.int 768) ⟨0⟩).1 = Except.ok anns ∧
      anns.length = [detJag, detEmpty].length ∧
      anns = [detJag, detEmpty].map fun det =>
        okValue ( build_annotation dobjEx get_agent (timestamp_now ⟨0⟩).1 det) :=
  claim1_one_annotation_per_detection_in_order dobjEx [detJag, detEmpty]
    (Value.int 1024) (Value.int 768) ⟨0⟩ rfl
    (by
      intro det hd
      rcases List.mem_cons.mp hd with rfl | hd2
      · rfl
      · rcases List.mem_cons.mp hd2 with rfl | hd3
        · rfl
        · simp at hd3)

/-- C6: every annotation in a successful output of one Annotation Mapper
call carries the single timestamp read at the start of that call — the
timestamp is computed once per mapping call, not once per detection. -/
theorem claim6_all_annotations_share_one_timestamp
    (digital_object dets ih iw : Value) (c : Clock) (anns : List Value)
    (hok : ( map_result_to_wlmo_annotation digital_object dets ih iw c).1 = Except.ok anns) :
    ∀ a ∈ anns, getField a "wlmo:created" = some (Value.str (timestamp_now c).1) := by
  intro a ha
  unfold map_result_to_wlmo_annotation at hok
  simp only [timestamp_now, bind, Except.bind] at hok
  cases hit : pyIter dets with
  | error m => rw [hit] at hok; simp at hok
  | ok ds =>
    rw [hit] at hok
    dsimp only at hok
    rcases mapExcept_mem_ok _ ds anns hok a ha with ⟨x, hx, hfx⟩
    exact build_annotation_created _ _ _ _ _ hfx

/-- C6 witness: the annotation produced for `detJag` at clock 5 carries
that clock reading as its created timestamp. -/
theorem claim6_witness :
    getField annJag5 "wlmo:created" = some (Value.str (timestamp_now ⟨5⟩).1) :=
  claim6_all_annotations_share_one_timestamp dobjEx (Value.arr [detJag])
    (Value.int 1024) (Value.int 768) ⟨5⟩ [annJag5] rfl annJag5
    (List.mem_singleton_self _)

/-- C10: the Fragment Selector builder is total exactly when every present
bounding-box field is integer-coercible (part 1, an equality of Booleans);
and a job whose single detection carries a non-coercible `x` field takes
the failure path — the coercion error becomes the job's failure notice and
no success event is published (part 2). -/
theorem claim10_selector_total_iff_box_fields_coercible :
    (∀ dkvs : List (String × Value),
      (build_wlmo_fragment_selector (Value.obj dkvs)).isOk =
        boxFieldsCoercible ((lookup? dkvs "boundingBox").getD (Value.obj []))) ∧
    (∀ (pkvs okvs bkvs : List (String × Value)) (jid v : Value) (m : String) (c : Clock),
      lookup? pkvs "jobId" = some jid →
      lookup? pkvs "object" = some (Value.obj okvs) →
      lookup? bkvs "x" = some v →
      pyInt v = Except.error m →
      ∃ evs c1, process_annotation_job (Value.obj pkvs)
          (HttpResult.ok (Value.obj [("output",
            Value.arr [Value.obj [("boundingBox", Value.obj bkvs)]])])) c
        = Except.ok (evs, c1) ∧
        Event.failed jid m ∈ evs ∧ ∀ e, Event.published e ∉ evs) := by
  refine ⟨selector_isOk_eq, ?_⟩
  intro pkvs okvs bkvs jid v m c hjid hobj hbx hpy
  rw [process_obj_eq]
  unfold processSpec
  simp only [hjid, hobj, Option.getD_some]
  have hdet : run_wildlive_detection (HttpResult.ok (Value.obj [("output",
      Value.arr [Value.obj [("boundingBox", Value.obj bkvs)]])])) =
      Except.ok (Value.arr [Value.obj [("boundingBox", Value.obj bkvs)]],
        Value.int (-1), Value.int (-1)) := rfl
  rw [hdet]
  dsimp only
  have hmr : map_result_to_wlmo_annotation (Value.obj okvs)
      (Value.arr [Value.obj [("boundingBox", Value.obj bkvs)]])
      (Value.int (-1)) (Value.int (-1)) c = (Except.error m, ⟨c.n + 1⟩) := by
    unfold map_result_to_wlmo_annotation
    simp [timestamp_now, pyIter, mapExcept, build_annotation,
      build_wlmo_fragment_selector, pyGetD, lookup?, hbx, hpy,
      bind, Except.bind]
  rw [hmr]
  exact ⟨_, _, rfl, by simp, by simp⟩

/-- C3: on any dict job payload the orchestrator emits exactly one Outcome
Event — one success publication or one failure notice, never both and never
neither. -/
theorem claim3_exactly_one_outcome_event (job_data : Value) (resp : HttpResult) (c : Clock)
    (hobj : job_data.isObj = true) :
    ∃ evs c1, process_annotation_job job_data resp c = Except.ok (evs, c1) ∧
      ∃ e, outcomeEvents evs = [e] := by
  cases job_data with
  | obj pkvs =>
    rw [process_obj_eq]
    unfold processSpec
    dsimp only
    cases holo : lookup? pkvs "object" with
    | none => exact ⟨_, _, rfl, _, rfl⟩
    | some dobj =>
      cases dobj with
      | obj okvs =>
        dsimp only
        cases hdet : run_wildlive_detection resp with
        | error m => exact ⟨_, _, rfl, _, rfl⟩
        | ok t =>
          rcases t with ⟨dets, hh, ww⟩
          dsimp only
          rcases hmr : map_result_to_wlmo_annotation (Value.obj okvs) dets hh ww c with ⟨r, c1⟩
          cases r with
          | error m => exact ⟨_, _, rfl, _, rfl⟩
          | ok anns =>
            dsimp only
            cases hjid : lookup? pkvs "jobId" with
            | none => exact ⟨_, _, rfl, _, rfl⟩
            | some jid => exact ⟨_, _, rfl, _, rfl⟩
      | null => exact ⟨_, _, rfl, _, rfl⟩
      | bool b => exact ⟨_, _, rfl, _, rfl⟩
      | int n => exact ⟨_, _, rfl, _, rfl⟩
      | float q => exact ⟨_, _, rfl, _, rfl⟩
      | str s => exact ⟨_, _, rfl, _, rfl⟩
      | arr xs => exact ⟨_, _, rfl, _, rfl⟩
  | null => simp [Value.isObj] at hobj
  | bool b => simp [Value.isObj] at hobj
  | int n => simp [Value.isObj] at hobj
  | float q => simp [Value.isObj] at hobj
  | str s => simp [Value.isObj] at hobj
  | arr xs => simp [Value.isObj] at hobj

/-- C3 witness: the concrete failing job of the C2 counterexample emits
exactly one Outcome Event. -/
theorem claim3_witness :
    ∃ evs c1, process_annotation_job payloadNoURI
        (HttpResult.transportError "connection refused") ⟨0⟩ = Except.ok (evs, c1) ∧
      ∃ e, outcomeEvents evs = [e] :=
  claim3_exactly_one_outcome_event payloadNoURI
    (HttpResult.transportError "connection refused") ⟨0⟩ rfl

/-- C7: on any dict job payload the orchestrator never raises to its caller;
every failure notice it emits carries the payload's job identifier (the
sentinel "unknown" when absent) and a non-empty error string. -/
theorem claim7_no_exception_escapes_the_orchestrator (job_data : Value) (resp : HttpResult)
    (c : Clock) (hobj : job_data.isObj = true) :
    ∃ evs c1, process_annotation_job job_data resp c = Except.ok (evs, c1) ∧
      ∀ jid m, Event.failed jid m ∈ evs →
        m ≠ "" ∧ pyGetD job_data "jobId" (Value.str "unknown") = Except.ok jid := by
  cases job_data with
  | obj pkvs =>
    rw [process_obj_eq]
    unfold processSpec
    dsimp only
    cases holo : lookup? pkvs "object" with
    | none =>
      refine ⟨_, _, rfl, ?_⟩
      intro jid m hmem
      simp at hmem
      rcases hmem with ⟨rfl, rfl⟩
      exact ⟨by decide, rfl⟩
    | some dobj =>
      cases dobj with
      | obj okvs =>
        dsimp only
        cases hdet : run_wildlive_detection resp with
        | error m0 =>
          refine ⟨_, _, rfl, ?_⟩
          intro jid m hmem
          simp at hmem
          rcases hmem with ⟨rfl, rfl⟩
          exact ⟨run_wildlive_detection_error_ne resp _ hdet, rfl⟩
        | ok t =>
          rcases t with ⟨dets, hh, ww⟩
          dsimp only
          rcases hmr : map_result_to_wlmo_annotation (Value.obj okvs) dets hh ww c with ⟨r, c1⟩
          cases r with
          | error m0 =>
            refine ⟨_, _, rfl, ?_⟩
            intro jid m hmem
            simp at hmem
            rcases hmem with ⟨rfl, rfl⟩
            refine ⟨map_result_error_ne (Value.obj okvs) dets hh ww c m ?_, rfl⟩
            rw [hmr]
          | ok anns =>
            dsimp only
            cases hjid : lookup? pkvs "jobId" with
            | none =>
              refine ⟨_, _, rfl, ?_⟩
              intro jid m hmem
              simp at hmem
              rcases hmem with ⟨rfl, rfl⟩
              exact ⟨by decide, by simp [pyGetD, hjid]⟩
            | some jid0 =>
              refine ⟨_, _, rfl, ?_⟩
              intro jid m hmem
              simp at hmem
      | null =>
        refine ⟨_, _, rfl, ?_⟩
        intro jid m hmem
        simp at hmem
        rcases hmem with ⟨rfl, rfl⟩
        exact ⟨by decide, rfl⟩
      | bool b =>
        refine ⟨_, _, rfl, ?_⟩
        intro jid m hmem
        simp at hmem
        rcases hmem with ⟨rfl, rfl⟩
        exact ⟨by decide, rfl⟩
      | int n =>
        refine ⟨_, _, rfl, ?_⟩
        intro jid m hmem
        simp at hmem
        rcases hmem with ⟨rfl, rfl⟩
        exact ⟨by decide, rfl⟩
      | float q =>
        refine ⟨_, _, rfl, ?_⟩
        intro jid m hmem
        simp at hmem
        rcases hmem with ⟨rfl, rfl⟩
        exact ⟨by decide, rfl⟩
      | str s =>
        refine ⟨_, _, rfl, ?_⟩
        intro jid m hmem
        simp at hmem
        rcases hmem with ⟨rfl, rfl⟩
        exact ⟨by decide, rfl⟩
      | arr xs =>
        refine ⟨_, _, rfl, ?_⟩
        intro jid m hmem
        simp at hmem
        rcases hmem with ⟨rfl, rfl⟩
        exact ⟨by decide, rfl⟩
  | null => simp [Value.isObj] at hobj
  | bool b => simp [Value.isObj] at hobj
  | int n => simp [Value.isObj] at hobj
  | float q => simp [Value.isObj] at hobj
  | str s => simp [Value.isObj] at hobj
  | arr xs => simp [Value.isObj] at hobj

/-- C7 witness: a payload with no object field yields a caught failure whose
notice carries the job id and a non-empty message. -/
theorem claim7_witness :
    ∃ evs c1, process_annotation_job (Value.obj [("jobId", Value.str "J7")])
        (HttpResult.ok (Value.obj [])) ⟨0⟩ = Except.ok (evs, c1) ∧
      ∀ jid m, Event.failed jid m ∈ evs →
        m ≠ "" ∧ pyGetD (Value.obj [("jobId", Value.str "J7")]) "jobId"
          (Value.str "unknown") = Except.ok jid :=
  claim7_no_exception_escapes_the_orchestrator (Value.obj [("jobId", Value.str "J7")])
    (HttpResult.ok (Value.obj [])) ⟨0⟩ rfl

/-- C8: two runs of the orchestrator on the same payload with identical
detection-service output are identical up to creation timestamps: after
erasing the `wlmo:created` fields (and the clock), the traces — including
the published Outcome Event with all its annotation content — coincide. -/
theorem claim8_runs_identical_up_to_timestamps (job_data : Value) (resp : HttpResult)
    (c1 c2 : Clock) :
    scrubRun (process_annotation_job job_data resp c1) =
      scrubRun (process_annotation_job job_data resp c2) := by
  cases job_data with
  | obj pkvs =>
    rw [process_obj_eq, process_obj_eq]
    unfold processSpec
    dsimp only
    cases holo : lookup? pkvs "object" with
    | none => rfl
    | some dobj =>
      cases dobj with
      | obj okvs =>
        dsimp only
        cases hdet : run_wildlive_detection resp with
        | error m => rfl
        | ok t =>
          rcases t with ⟨dets, hh, ww⟩
          dsimp only
          have hsc := map_result_scrub (Value.obj okvs) dets hh ww c1 c2
          rcases h1 : map_result_to_wlmo_annotation (Value.obj okvs) dets hh ww c1 with ⟨r1, d1⟩
          rcases h2 : map_result_to_wlmo_annotation (Value.obj okvs) dets hh ww c2 with ⟨r2, d2⟩
          rw [h1, h2] at hsc
          dsimp only at hsc
          cases r1 with
          | error m1 =>
            cases r2 with
            | error m2 =>
              simp [Except.map] at hsc
              subst hsc
              rfl
            | ok anns2 => simp [Except.map] at hsc
          | ok anns1 =>
            cases r2 with
            | error m2 => simp [Except.map] at hsc
            | ok anns2 =>
              simp only [Except.map] at hsc
              injection hsc with hsc
              dsimp only
              cases hjid : lookup? pkvs "jobId" with
              | none => rfl
              | some jid =>
                simp [scrubRun, scrubEvent, scrubEventValue, hsc]
      | null => rfl
      | bool b => rfl
      | int n => rfl
      | float q => rfl
      | str s => rfl
      | arr xs => rfl
  | null => rfl
  | bool b => rfl
  | int n => rfl
  | float q => rfl
  | str s => rfl
  | arr xs => rfl

/-- C10 witness: a null `x` field makes the selector builder fail (part 1
instantiated) and sends the concrete job down the failure path (part 2
instantiated). -/
theorem claim10_witness :
    ((build_wlmo_fragment_selector (Value.obj [("boundingBox",
        Value.obj [("x", Value.null)])])).isOk =
      boxFieldsCoercible ((lookup? [("boundingBox", Value.obj [("x", Value.null)])]
        "boundingBox").getD (Value.obj []))) ∧
    (∃ evs c1, process_annotation_job
        (Value.obj [("jobId", Value.str "J1"), ("object", dobjEx)])
        (HttpResult.ok (Value.obj [("output",
          Value.arr [Value.obj [("boundingBox", Value.obj [("x", Value.null)])]])])) ⟨0⟩
      = Except.ok (evs, c1) ∧
      Event.failed (Value.str "J1")
        "TypeError: int argument must be a string or a number, not NoneType" ∈ evs ∧
      ∀ e, Event.published e ∉ evs) :=
  ⟨claim10_selector_total_iff_box_fields_coercible.1 _,
   claim10_selector_total_iff_box_fields_coercible.2 _ _ _ _ _ _ ⟨0⟩ rfl rfl rfl rfl⟩

end Wildlive
